import Mathlib

/-!
# Verification of the V8.NET proxy layer (handle lifecycle, interception dispatch)

Shallow embedding of the C++ proxy sources:
  `HandleProxy.cpp`, `ObjectTemplateProxy.cpp`, `FunctionTemplateProxy.cpp`,
  `Exports.cpp`, `ProxyTypes.h`.

V8 engine values are modelled abstractly: an inductive value type carries
exactly the distinctions the proxy code observes through the `Is*` predicate
family (`IsBoolean`, `IsInt32`, `IsObject`, ...), internal fields, and hidden
properties.  Numeric payloads are carried as opaque integers (no claim here
depends on floating-point arithmetic).
-/

/-- `TProxyObjectType` from ProxyTypes.h: tag identifying proxy classes when
references are passed between native and managed code. -/
inductive TProxyObjectType where
  | objectTemplateProxyClass
  | functionTemplateProxyClass
  | v8EngineProxyClass
deriving DecidableEq, Repr

/-- `JSValueType` from ProxyTypes.h: the value-kind tag stored in a handle
proxy.  Negative members are error kinds. -/
inductive JSValueType where
  | executionError
  | compilerError
  | internalError
  | undefined
  | null
  | bool
  | boolObject
  | int32
  | number
  | numberObject
  | string
  | stringObject
  | object
  | function
  | date
  | array
  | regExp
deriving DecidableEq, Repr

/-- The integer value of each `JSValueType` member, as declared in the C enum
(`JSV_ExecutionError = -3`, ..., `JSV_RegExp`). -/
def JSValueType.toInt : JSValueType → Int
  | .executionError => -3
  | .compilerError => -2
  | .internalError => -1
  | .undefined => 0
  | .null => 1
  | .bool => 2
  | .boolObject => 3
  | .int32 => 4
  | .number => 5
  | .numberObject => 6
  | .string => 7
  | .stringObject => 8
  | .object => 9
  | .function => 10
  | .date => 11
  | .array => 12
  | .regExp => 13

/-- The kind of a V8 heap object, carrying the distinctions observed by the
proxy code through `IsBooleanObject`, `IsNumberObject`, `IsStringObject`,
`IsDate`, `IsArray`, `IsRegExp`, `IsFunction`, `IsNativeError`. -/
inductive ObjKind where
  | plain
  | boolObj
  | numObj
  | strObj
  | date
  | array
  | regexp
  | func
  | nativeError
deriving DecidableEq, Repr

/-- Content of one reserved internal field of a V8 object.  The proxy code
stores either an `External` wrapping a managed object id
(`SetInternalField(1, External::New(...))`) or an aligned pointer to a proxy
instance (`SetAlignedPointerInInternalField(0, templateProxy)`, possibly
null). -/
inductive SlotContent where
  | undef
  | extRef (payload : Int)
  | aligned (ptr : Option Nat)
deriving DecidableEq, Repr

/-- A hidden (string-keyed) property value, restricted to the shapes the proxy
code reads and writes: `Integer::New(id)` and `External::New(fn)`. -/
inductive HiddenVal where
  | hInt32 (n : Int)
  | hExtRef (payload : Int)
  | hOther
deriving DecidableEq, Repr

/-- A V8 heap object as seen by the proxy layer: its kind, its reserved
internal fields, and its hidden-property map (an association list keyed by
property name). -/
structure V8Object where
  kind : ObjKind
  internalFields : List SlotContent
  hidden : List (String × HiddenVal)
deriving DecidableEq, Repr

/-- A V8 value as observed by the proxy layer.  `int32` vs `num` mirrors
V8's `IsInt32` / `IsNumber` distinction; `num` payloads are opaque. -/
inductive V8Value where
  | undef
  | vnull
  | boolean (b : Bool)
  | int32 (n : Int)
  | num (payload : Int)
  | str (s : String)
  | extVal (payload : Int)
  | obj (o : V8Object)
deriving DecidableEq, Repr

/-- `Value::IsBoolean`. -/
def V8Value.isBoolean : V8Value → Bool
  | .boolean _ => true
  | _ => false

/-- `Value::IsBooleanObject`. -/
def V8Value.isBooleanObject : V8Value → Bool
  | .obj o => o.kind = .boolObj
  | _ => false

/-- `Value::IsInt32`. -/
def V8Value.isInt32 : V8Value → Bool
  | .int32 _ => true
  | _ => false

/-- `Value::IsNumber` (true for int32 numbers as well). -/
def V8Value.isNumber : V8Value → Bool
  | .int32 _ => true
  | .num _ => true
  | _ => false

/-- `Value::IsNumberObject`. -/
def V8Value.isNumberObject : V8Value → Bool
  | .obj o => o.kind = .numObj
  | _ => false

/-- `Value::IsString`. -/
def V8Value.isString : V8Value → Bool
  | .str _ => true
  | _ => false

/-- `Value::IsStringObject`. -/
def V8Value.isStringObject : V8Value → Bool
  | .obj o => o.kind = .strObj
  | _ => false

/-- `Value::IsDate`. -/
def V8Value.isDate : V8Value → Bool
  | .obj o => o.kind = .date
  | _ => false

/-- `Value::IsArray`. -/
def V8Value.isArray : V8Value → Bool
  | .obj o => o.kind = .array
  | _ => false

/-- `Value::IsRegExp`. -/
def V8Value.isRegExp : V8Value → Bool
  | .obj o => o.kind = .regexp
  | _ => false

/-- `Value::IsNull`. -/
def V8Value.isNull : V8Value → Bool
  | .vnull => true
  | _ => false

/-- `Value::IsFunction`. -/
def V8Value.isFunction : V8Value → Bool
  | .obj o => o.kind = .func
  | _ => false

/-- `Value::IsExternal`. -/
def V8Value.isExtVal : V8Value → Bool
  | .extVal _ => true
  | _ => false

/-- `Value::IsNativeError`. -/
def V8Value.isNativeError : V8Value → Bool
  | .obj o => o.kind = .nativeError
  | _ => false

/-- `Value::IsUndefined`. -/
def V8Value.isUndefined : V8Value → Bool
  | .undef => true
  | _ => false

/-- `Value::IsObject` (false for `null`; true for every actual object,
including functions, arrays, dates, wrappers and errors). -/
def V8Value.isObject : V8Value → Bool
  | .obj _ => true
  | _ => false

/-- `Value::IsFalse`. -/
def V8Value.isFalse : V8Value → Bool
  | .boolean b => !b
  | _ => false

/-- `Value::IsTrue`. -/
def V8Value.isTrue : V8Value → Bool
  | .boolean b => b
  | _ => false

/-- Hidden-property lookup: `Object::GetHiddenValue(name)`; `none` models the
empty handle returned when the property is absent. -/
def V8Object.hiddenGet (o : V8Object) (name : String) : Option HiddenVal :=
  (o.hidden.find? (fun p => p.1 = name)).map (·.2)

/-- The materialized value box primitive (`HandleValue` union members
`V8Boolean` / `V8Integer` / `V8Number` from ProxyTypes.h). -/
inductive BoxPrim where
  | pBool (b : Bool)
  | pInt (n : Int)
  | pNum (x : Int)
  | pNone
deriving DecidableEq, Repr

/-- `HandleValue` from ProxyTypes.h: the marshalling box of a handle proxy,
holding one primitive union member and an optional string snapshot. -/
structure HandleValue where
  prim : BoxPrim
  strVal : Option String
deriving DecidableEq, Repr

/-- A freshly disposed value box (`HandleValue::Dispose` frees the string and
leaves no meaningful primitive). -/
def HandleValue.empty : HandleValue := ⟨.pNone, none⟩

/-- `HandleProxy` from ProxyTypes.h.  `objectID` is `_ObjectID` (called
`_ManagedObjectID` at its use sites in HandleProxy.cpp); `handle` models the
`Persistent<Value> _Handle` member, `none` being the empty/cleared
persistent. -/
structure HandleProxy where
  id : Int
  objectID : Int
  vtype : JSValueType
  value : HandleValue
  refCount : Int
  disposedState : Int
  engineID : Nat
  handle : Option V8Value
deriving DecidableEq, Repr

/-- `HandleProxy::IsError` from ProxyTypes.h: `return _Type < 0;`. -/
def HandleProxy.isError (hp : HandleProxy) : Bool :=
  hp.vtype.toInt < 0

/-- Classification of a value as performed by the if-else chain of
`HandleProxy::SetHandle` (HandleProxy.cpp lines 81-156), in source order. -/
def classify (v : V8Value) : JSValueType :=
  if v.isBoolean then .bool
  else if v.isBooleanObject then .boolObject
  else if v.isInt32 then .int32
  else if v.isNumber then .number
  else if v.isNumberObject then .numberObject
  else if v.isString then .string
  else if v.isStringObject then .stringObject
  else if v.isDate then .date
  else if v.isArray then .array
  else if v.isRegExp then .regExp
  else if v.isNull then .object
  else if v.isFunction then .function
  else if v.isExtVal then .undefined
  else if v.isNativeError then .undefined
  else if v.isUndefined then .undefined
  else if v.isObject then .object
  else if v.isFalse then .bool
  else if v.isTrue then .bool
  else .undefined

/-- `HandleProxy::SetHandle`: replaces the persistent handle with the new
value and recomputes the value-kind tag via the classification chain. -/
def HandleProxy.setHandle (hp : HandleProxy) (v : V8Value) : HandleProxy :=
  { hp with handle := some v, vtype := classify v }

/-- `Value::BooleanValue` on the wrapped persistent handle. -/
def booleanValue : Option V8Value → Bool
  | some (.boolean b) => b
  | _ => false

/-- `Value::Int32Value` on the wrapped persistent handle. -/
def int32Value : Option V8Value → Int
  | some (.int32 n) => n
  | _ => 0

/-- `Value::NumberValue` on the wrapped persistent handle (payloads are
opaque integers in this model). -/
def numberValue : Option V8Value → Int
  | some (.int32 n) => n
  | some (.num x) => x
  | _ => 0

/-- The UTF-16 snapshot taken via `_StringItem(engine, *_Handle.As<String>())`
for string-tagged handles. -/
def stringValue : Option V8Value → String
  | some (.str s) => s
  | _ => ""

/-- The string representation taken via `_Handle->ToString()` in the default
branch of `UpdateValue` (opaque for non-strings). -/
def toStringValue : Option V8Value → String
  | some (.str s) => s
  | _ => "[object]"

/-- The value box written by `HandleProxy::UpdateValue` (HandleProxy.cpp lines
247-307): `_Value.Dispose()` followed by the switch on `_Type`.  The default
branch covers object-like tags and checks `_Handle.IsEmpty()` before calling
`ToString`. -/
def updatedBox (t : JSValueType) (h : Option V8Value) : HandleValue :=
  match t with
  | .bool => ⟨.pBool (booleanValue h), none⟩
  | .boolObject => ⟨.pBool (booleanValue h), none⟩
  | .int32 => ⟨.pInt (int32Value h), none⟩
  | .number => ⟨.pNum (numberValue h), none⟩
  | .numberObject => ⟨.pNum (numberValue h), none⟩
  | .string => ⟨.pNone, some (stringValue h)⟩
  | .stringObject => ⟨.pNone, some (stringValue h)⟩
  | .date => ⟨.pNum (numberValue h), some (stringValue h)⟩
  | .undefined => ⟨.pNum 0, none⟩
  | _ => ⟨.pNone, if h.isSome then some (toStringValue h) else none⟩

/-- `HandleProxy::UpdateValue`: refreshes the value box from the persistent
handle according to the stored kind tag.  Neither `_Type` nor `_Handle` is
written by this function. -/
def HandleProxy.updateValue (hp : HandleProxy) : HandleProxy :=
  { hp with value := updatedBox hp.vtype hp.handle }

/-- The managed-object-id scan of `HandleProxy::GetManagedObjectID`
(HandleProxy.cpp lines 180-199): for objects with more than one internal
field, read field 1 and take its payload if it is an `External`; for other
objects, read the hidden property `"ManagedObjectID"` if present and an
`Int32`; in every remaining case the result is the `-2` written at the start
of the scan. -/
def scanObjectID : Option V8Value → Int
  | some (.obj o) =>
    if 1 < o.internalFields.length then
      match o.internalFields.get? 1 with
      | some (.extRef p) => p
      | _ => -2
    else
      match o.hiddenGet "ManagedObjectID" with
      | some (.hInt32 n) => n
      | _ => -2
  | _ => -2

/-- Result of one `GetManagedObjectID` call: the returned id, the updated
proxy, and whether the call inspected the underlying engine value (the scan
path; the cached path returns without touching the engine). -/
structure GmoOut where
  ret : Int
  hp : HandleProxy
  scanned : Bool
deriving DecidableEq, Repr

/-- `HandleProxy::GetManagedObjectID` (HandleProxy.cpp lines 173-202): if the
cached id is `< -1` or `>= 0` it is returned as is; otherwise the cached id is
set to `-2` and the value is scanned, the scan result (which defaults to `-2`)
becoming both the cache and the return value. -/
def HandleProxy.getManagedObjectID (hp : HandleProxy) : GmoOut :=
  if hp.objectID < -1 ∨ 0 ≤ hp.objectID then
    ⟨hp.objectID, hp, false⟩
  else
    let n := scanObjectID hp.handle
    ⟨n, { hp with objectID := n }, true⟩

/-- Two successive `GetManagedObjectID` calls on the same handle (engine state
unchanged in between): first returned id, second returned id, and whether the
second call inspected the engine value. -/
def gmoTwice (hp : HandleProxy) : Int × Int × Bool :=
  let r1 := hp.getManagedObjectID
  let r2 := r1.hp.getManagedObjectID
  (r1.ret, r2.ret, r2.scanned)

/-- Result of the engine-collector revival callback: the proxy afterwards and
whether the registered managed collector-request callback was invoked. -/
structure RevivalOut where
  hp : HandleProxy
  consulted : Bool
deriving Repr

/-- `HandleProxy::_RevivableCallback` (HandleProxy.cpp lines 222-243).
`cb` is the engine's `_ManagedV8GarbageCollectionRequestCallback` (`none` when
no callback is registered).  `dispose` starts `true`; the callback is invoked
only when registered and the cached `_ManagedObjectID` is `>= 0`; when
`dispose` remains `true` a non-empty persistent handle is disposed and
cleared. -/
def revivableCallback (cb : Option (HandleProxy → Bool)) (hp : HandleProxy) :
    RevivalOut :=
  let dc : Bool × Bool :=
    match cb with
    | some f => if 0 ≤ hp.objectID then (f hp, true) else (true, false)
    | none => (true, false)
  if dc.1 then
    match hp.handle with
    | some _ => ⟨{ hp with handle := none }, dc.2⟩
    | none => ⟨hp, dc.2⟩
  else ⟨hp, dc.2⟩

/-- Outcome of an intercepted operation or function invocation as returned to
the engine: a concrete value handle, the empty handle (`Handle<Value>()`,
meaning "not handled" for interceptors and "undefined" for invocations), or a
thrown exception carrying a message (`ThrowException`). -/
inductive InterceptOutcome where
  | value (v : V8Value)
  | empty
  | thrown (msg : String)
deriving DecidableEq, Repr

/-- The target of `ObjectTemplateProxy::GetProperty`, i.e. one registered
object-template proxy record as reachable through the aligned pointer stored
in internal field 0: its `ProxyBase::Type` tag and its registered
`NamedPropertyGetter` (`none` result models a null `HandleProxy*`). -/
structure ProxyRec where
  typeTag : TProxyObjectType
  namedGetter : String → Option V8Value

/-- `GetAlignedPointerFromInternalField(0)`: the stored aligned pointer (it is
only read after the field was checked to be non-undefined; a null pointer is
modelled as `none`). -/
def SlotContent.alignedPtr : SlotContent → Option Nat
  | .aligned p => p
  | _ => none

/-- `ObjectTemplateProxy::GetProperty` for named properties
(ObjectTemplateProxy.cpp lines 84-112).  `heap` maps aligned-pointer values to
the proxy records they reference.  The dispatcher intercepts only when the
holder has more than one internal field, field 0 is not undefined, the aligned
pointer is non-null, and the referenced proxy has type
`ObjectTemplateProxyClass`; a null getter result falls through to the empty
handle.  No branch throws. -/
def ObjectTemplateProxy.getProperty (heap : Nat → ProxyRec) (obj : V8Object)
    (name : String) : InterceptOutcome :=
  if 1 < obj.internalFields.length then
    match obj.internalFields.get? 0 with
    | some field =>
      if field ≠ .undef then
        match field.alignedPtr with
        | some addr =>
          if (heap addr).typeTag = .objectTemplateProxyClass then
            match (heap addr).namedGetter name with
            | some res => .value res
            | none => .empty
          else .empty
        | none => .empty
      else .empty
    | none => .empty
  else .empty

/-- The getter reached by the guard chain of `ObjectTemplateProxy::GetProperty`
(ObjectTemplateProxy.cpp lines 88-95): `some` exactly when the holder has the
reserved internal-slot layout, slot 0 is not undefined, its aligned pointer is
non-null, and the referenced proxy is of object-template type; `none` when any
guard fails and the dispatcher declines to intercept. -/
def reachedGetter (heap : Nat → ProxyRec) (obj : V8Object) :
    Option (String → Option V8Value) :=
  if 1 < obj.internalFields.length then
    match obj.internalFields.get? 0 with
    | some field =>
      if field ≠ .undef then
        match field.alignedPtr with
        | some addr =>
          if (heap addr).typeTag = .objectTemplateProxyClass then
            some (heap addr).namedGetter
          else none
        | none => none
      else none
    | none => none
  else none

/-- The result record a managed function callback hands back to
`FunctionTemplateProxy::InvocationCallbackProxy`: a `HandleProxy` whose kind
tag decides `IsError()`, whose persistent handle is the return value, and
whose `ToString()` representation feeds the thrown exception message. -/
structure ManagedCallResult where
  vtype : JSValueType
  handleVal : V8Value
  strRep : String

/-- `ManagedCallResult.isError`: `HandleProxy::IsError`, i.e. kind tag
`< 0`. -/
def ManagedCallResult.isError (r : ManagedCallResult) : Bool :=
  r.vtype.toInt < 0

/-- `FunctionTemplateProxy::InvocationCallbackProxy`
(FunctionTemplateProxy.cpp lines 45-71), parameterized by the stored
`_ManagedCallback` (`none` when null) applied to the construct-call flag and
the marshalled arguments.  A null callback or a null result yields the empty
handle; an error-tagged result is thrown as an exception carrying the
result's string representation; any other result is returned as the call's
value. -/
def FunctionTemplateProxy.invocationCallbackProxy
    (cb : Option (Bool → List V8Value → Option ManagedCallResult))
    (isConstructCall : Bool) (args : List V8Value) : InterceptOutcome :=
  match cb with
  | none => .empty
  | some f =>
    match f isConstructCall args with
    | some result =>
      if result.isError then .thrown result.strRep
      else .value result.handleVal
    | none => .empty

/-- Whether the proxy's persistent handle currently references an engine
object: the negation of the guard `handle.IsEmpty() || !handle->IsObject()`
used by every object operation in Exports.cpp. -/
def HandleProxy.refsObject (hp : HandleProxy) : Bool :=
  match hp.handle with
  | some v => v.isObject
  | none => false

/-- Whether the proxy's persistent handle currently references an array: the
negation of the guard `handle.IsEmpty() || !handle->IsArray()` used by
`GetArrayLength`. -/
def HandleProxy.refsArray (hp : HandleProxy) : Bool :=
  match hp.handle with
  | some v => v.isArray
  | none => false

/-- The structural-precondition errors thrown by the object operations in
Exports.cpp: `"The handle does not represent an object."` and
`"The handle does not represent an array object."`. -/
inductive ObjOpError where
  | notAnObject
  | notAnArray
deriving DecidableEq, Repr

/-- The engine-side effect an object operation performs once its
precondition holds (recorded abstractly; the claims settled here concern only
the failure path, which performs none). -/
inductive EngineAction where
  | getByName (s : String)
  | getByIndex (i : Nat)
  | setByName (s : String)
  | setByIndex (i : Nat)
  | deleteByName (s : String)
  | deleteByIndex (i : Nat)
  | queryAttributes (s : String)
  | enumNames
  | enumOwnNames
  | readPrototype
  | readArrayLength
deriving DecidableEq, Repr

/-- Modelled from the spec: the engine-side registry and heap state visible to
the object operations of Exports.cpp.  `nextProxy` counts handle-proxy
allocations performed through `V8EngineProxy::GetHandleProxy` (whose body
lives outside the provided sources; the spec describes it as registry slot
allocation/recycling), and `performed` records the engine calls made. -/
structure EngineSt where
  nextProxy : Nat
  performed : List EngineAction
deriving DecidableEq, Repr

/-- Record a successful engine call: append the action and, when it hands a
result back through `GetHandleProxy`, account for the proxy allocation. -/
def EngineSt.perform (st : EngineSt) (a : EngineAction) (allocates : Bool) :
    EngineSt :=
  { st with
    nextProxy := st.nextProxy + (if allocates then 1 else 0)
    performed := st.performed ++ [a] }

/-- `GetObjectPropertyByName` (Exports.cpp lines 221-228): throws
"not an object" before any engine call when the handle is empty or not an
object; otherwise reads the property and wraps it in a proxy. -/
def getObjectPropertyByName (hp : HandleProxy) (name : String) (st : EngineSt) :
    Except ObjOpError Unit × EngineSt :=
  if hp.refsObject then (.ok (), st.perform (.getByName name) true)
  else (.error .notAnObject, st)

/-- `GetObjectPropertyByIndex` (Exports.cpp lines 230-237). -/
def getObjectPropertyByIndex (hp : HandleProxy) (i : Nat) (st : EngineSt) :
    Except ObjOpError Unit × EngineSt :=
  if hp.refsObject then (.ok (), st.perform (.getByIndex i) true)
  else (.error .notAnObject, st)

/-- `SetObjectPropertyByName` (Exports.cpp lines 201-209). -/
def setObjectPropertyByName (hp : HandleProxy) (name : String) (st : EngineSt) :
    Except ObjOpError Unit × EngineSt :=
  if hp.refsObject then (.ok (), st.perform (.setByName name) false)
  else (.error .notAnObject, st)

/-- `SetObjectPropertyByIndex` (Exports.cpp lines 211-219). -/
def setObjectPropertyByIndex (hp : HandleProxy) (i : Nat) (st : EngineSt) :
    Except ObjOpError Unit × EngineSt :=
  if hp.refsObject then (.ok (), st.perform (.setByIndex i) false)
  else (.error .notAnObject, st)

/-- `DeleteObjectPropertyByName` (Exports.cpp lines 239-246). -/
def deleteObjectPropertyByName (hp : HandleProxy) (name : String)
    (st : EngineSt) : Except ObjOpError Unit × EngineSt :=
  if hp.refsObject then (.ok (), st.perform (.deleteByName name) false)
  else (.error .notAnObject, st)

/-- `DeleteObjectPropertyByIndex` (Exports.cpp lines 248-255). -/
def deleteObjectPropertyByIndex (hp : HandleProxy) (i : Nat) (st : EngineSt) :
    Except ObjOpError Unit × EngineSt :=
  if hp.refsObject then (.ok (), st.perform (.deleteByIndex i) false)
  else (.error .notAnObject, st)

/-- `GetPropertyAttributes` (Exports.cpp lines 292-299). -/
def getPropertyAttributes (hp : HandleProxy) (name : String) (st : EngineSt) :
    Except ObjOpError Unit × EngineSt :=
  if hp.refsObject then (.ok (), st.perform (.queryAttributes name) false)
  else (.error .notAnObject, st)

/-- `GetPropertyNames` (Exports.cpp lines 272-280). -/
def getPropertyNames (hp : HandleProxy) (st : EngineSt) :
    Except ObjOpError Unit × EngineSt :=
  if hp.refsObject then (.ok (), st.perform .enumNames true)
  else (.error .notAnObject, st)

/-- `GetOwnPropertyNames` (Exports.cpp lines 282-290). -/
def getOwnPropertyNames (hp : HandleProxy) (st : EngineSt) :
    Except ObjOpError Unit × EngineSt :=
  if hp.refsObject then (.ok (), st.perform .enumOwnNames true)
  else (.error .notAnObject, st)

/-- `GetObjectPrototype` (Exports.cpp lines 148-154). -/
def getObjectPrototype (hp : HandleProxy) (st : EngineSt) :
    Except ObjOpError Unit × EngineSt :=
  if hp.refsObject then (.ok (), st.perform .readPrototype true)
  else (.error .notAnObject, st)

/-- `GetArrayLength` (Exports.cpp lines 301-307): throws "not an array"
before any engine call when the handle is empty or not an array. -/
def getArrayLength (hp : HandleProxy) (st : EngineSt) :
    Except ObjOpError Unit × EngineSt :=
  if hp.refsArray then (.ok (), st.perform .readArrayLength false)
  else (.error .notAnArray, st)

/-- `Object::SetInternalField(i, c)` / `SetAlignedPointerInInternalField`. -/
def V8Object.setField (o : V8Object) (i : Nat) (c : SlotContent) : V8Object :=
  { o with internalFields := o.internalFields.set i c }

/-- `Object::SetHiddenValue(name, v)`: bind `name` to `v`.  In this
association-list model the new binding is placed in front and shadows any
older binding for the same key (lookups use the first match). -/
def V8Object.setHidden (o : V8Object) (name : String) (v : HiddenVal) :
    V8Object :=
  { o with hidden := (name, v) :: o.hidden }

/-- `ConnectObject` (Exports.cpp lines 131-146).  `tmpl` is the
`templateProxy` pointer (an aligned proxy reference, `none` when null).  When
the wrapped value is a non-empty object: if it has more than one internal
field, field 0 receives the template back-reference (only when `tmpl` is
non-null) and field 1 the `External`-wrapped id; the hidden
`"ManagedObjectID"` marker is stamped on every object.  In all cases
`SetManagedObjectID` finally caches the id on the proxy. -/
def connectObject (hp : HandleProxy) (managedObjectID : Int)
    (tmpl : Option Nat) : HandleProxy :=
  let hp1 :=
    match hp.handle with
    | some (.obj o) =>
      let o1 :=
        if 1 < o.internalFields.length then
          let oA :=
            match tmpl with
            | some t => o.setField 0 (.aligned (some t))
            | none => o
          oA.setField 1 (.extRef managedObjectID)
        else o
      let o2 := o1.setHidden "ManagedObjectID" (.hInt32 managedObjectID)
      { hp with handle := some (.obj o2) }
    | _ => hp
  { hp1 with objectID := managedObjectID }

/-- One observable step of a handle operation, used to examine which steps
touch engine-owned state and which run under the handle-system mutex.
`lockEngineMutex`/`unlockEngineMutex` bracket the period during which
`_EngineProxy->_HandleSystemMutex` is held (acquiring it dereferences the
engine instance); `readStaticDisposedTable` is the read of the static
`V8EngineProxy::_DisposedEngines` vector (not engine-instance memory);
`readEngineField` is any other dereference of `_EngineProxy->...`; `v8Call`
is a call into the V8 API of the engine's isolate. -/
inductive EngineEv where
  | lockEngineMutex
  | unlockEngineMutex
  | readStaticDisposedTable
  | freeOwnMemory
  | registryDisposeCall
  | setObjectIDUnresolved
  | disposeValueBox
  | setDisposedState
  | readEngineField
  | v8Call
deriving DecidableEq, Repr

/-- Whether a step touches engine state (the engine instance's memory or the
engine's V8 isolate). -/
def EngineEv.touchesEngine : EngineEv → Bool
  | .lockEngineMutex => true
  | .unlockEngineMutex => true
  | .readEngineField => true
  | .v8Call => true
  | _ => false

/-- Whether a step is a handle-registry mutation (disposal-state transition,
identifier-cache reset, value-box release, slot recycling registration, or
freeing the record). -/
def EngineEv.isRegistryMutation : EngineEv → Bool
  | .freeOwnMemory => true
  | .registryDisposeCall => true
  | .setObjectIDUnresolved => true
  | .disposeValueBox => true
  | .setDisposedState => true
  | _ => false

/-- The step sequence of `HandleProxy::_Dispose` (HandleProxy.cpp lines
26-49).  The statement
`std::lock_guard<std::recursive_mutex>(_EngineProxy->_HandleSystemMutex);`
constructs an unnamed temporary guard: per C++ temporary lifetime rules it is
destroyed at the end of that full statement, so the mutex is acquired and
released again before the next line runs.  Then `V8EngineProxy::IsDisposed`
reads the static table; the engine-gone branch frees the record; otherwise a
proxy in disposal state 1 either registers with the engine registry
(`registerDisposal`) or resets its id cache, releases the value box and moves
to state 2. -/
def disposeTrace (engineDisposed : Bool) (registerDisposal : Bool)
    (disposedState : Int) : List EngineEv :=
  [.lockEngineMutex, .unlockEngineMutex] ++
  [.readStaticDisposedTable] ++
  (if engineDisposed then [.freeOwnMemory]
   else if disposedState = 1 then
     (if registerDisposal then [.registryDisposeCall]
      else [.setObjectIDUnresolved, .disposeValueBox, .setDisposedState])
   else [])

/-- The step sequence of `HandleProxy::MakeWeak` (HandleProxy.cpp lines
207-210): unconditionally `_Handle.MakeWeak(_EngineProxy->_Isolate, this,
_RevivableCallback)` — the engine field read and the V8 call are performed
with no check of the engine's disposed state. -/
def makeWeakTrace : List EngineEv := [.readEngineField, .v8Call]

/-- The step sequence of `HandleProxy::MakeStrong` (HandleProxy.cpp lines
213-216): unconditionally `_Handle.ClearWeak(_EngineProxy->_Isolate)`. -/
def makeStrongTrace : List EngineEv := [.readEngineField, .v8Call]

/-- The step sequence of `HandleProxy::UpdateValue` (HandleProxy.cpp lines
247-307) as a function of the stored kind tag and handle emptiness: every
value-materializing branch calls into V8 (`BooleanValue`, `Int32Value`,
`NumberValue`, `ToString`), the string/date branches additionally use the
engine's string cache (`_StringItem(_EngineProxy, ...)`); only the
`JSV_Undefined` branch and the default branch on an empty handle perform no
engine access.  No branch checks the engine's disposed state. -/
def updateValueTrace (t : JSValueType) (handleEmpty : Bool) : List EngineEv :=
  match t with
  | .bool => [.v8Call]
  | .boolObject => [.v8Call]
  | .int32 => [.v8Call]
  | .number => [.v8Call]
  | .numberObject => [.v8Call]
  | .string => [.v8Call, .readEngineField]
  | .stringObject => [.v8Call, .readEngineField]
  | .date => [.v8Call, .v8Call, .readEngineField]
  | .undefined => []
  | _ => if handleEmpty then [] else [.v8Call, .readEngineField]

/-- Checks that every registry mutation in a step sequence occurs while the
mutex is held (`d` is the current lock depth of the recursive mutex). -/
def guardedFrom : Nat → List EngineEv → Bool
  | _, [] => true
  | d, .lockEngineMutex :: rest => guardedFrom (d + 1) rest
  | d, .unlockEngineMutex :: rest => guardedFrom (d - 1) rest
  | d, e :: rest =>
    (if e.isRegistryMutation then decide (0 < d) else true) &&
      guardedFrom d rest

/-- Whether all registry mutations of a step sequence happen under the
handle-system mutex. -/
def mutationsGuarded (tr : List EngineEv) : Bool := guardedFrom 0 tr

/-- C1: when the engine's collector invokes the revival callback on a weak
handle, the registered collector-request callback is consulted exactly when
one is registered and the handle's cached host-object identifier is `>= 0`
(untagged handles, id `< 0`, are disposed unconditionally); a "do not
dispose" reply leaves the persistent engine reference intact, and in every
other case the persistent engine reference is released and cleared. -/
theorem revivable_callback_protocol
    (cb : Option (HandleProxy → Bool)) (hp : HandleProxy) :
    ((revivableCallback cb hp).consulted
        = (cb.isSome && decide (0 ≤ hp.objectID)))
    ∧ (∀ f, cb = some f → 0 ≤ hp.objectID → f hp = false →
        (revivableCallback cb hp).hp = hp)
    ∧ (∀ f, cb = some f → 0 ≤ hp.objectID → f hp = true →
        (revivableCallback cb hp).hp = { hp with handle := none })
    ∧ (hp.objectID < 0 →
        (revivableCallback cb hp).hp = { hp with handle := none }) := by
  obtain ⟨hid, oid, t, v, rc, ds, eid, h⟩ := hp
  cases cb with
  | none =>
    refine ⟨?_, by simp, by simp, ?_⟩
    · cases h <;> simp [revivableCallback]
    · intro _; cases h <;> simp [revivableCallback]
  | some f =>
    by_cases ho : (0 : Int) ≤ oid
    · refine ⟨?_, ?_, ?_, ?_⟩
      · by_cases hf : f ⟨hid, oid, t, v, rc, ds, eid, h⟩ = true
        · cases h <;> simp [revivableCallback, ho, hf]
        · cases h <;> simp [revivableCallback, ho, Bool.not_eq_true _ ▸ hf]
      · intro g hg _ hfval
        cases hg
        cases h <;> simp [revivableCallback, ho, hfval]
      · intro g hg _ hfval
        cases hg
        cases h <;> simp [revivableCallback, ho, hfval]
      · intro hneg; simp at hneg; omega
    · refine ⟨?_, ?_, ?_, ?_⟩
      · cases h <;> simp [revivableCallback, ho]
      · intro g hg hpos; simp at hpos; omega
      · intro g hg hpos; simp at hpos; omega
      · intro _; cases h <;> simp [revivableCallback, ho]

/-- A concrete weak handle tagged with host-object id 3, wrapping a plain
engine object. -/
def c1Hp : HandleProxy :=
  ⟨1, 3, .object, HandleValue.empty, 0, 0, 0, some (.obj ⟨.plain, [], []⟩)⟩

/-- Witness for `revivable_callback_protocol` at a concrete tagged handle:
a "do not dispose" reply keeps the engine reference, a "dispose" reply
clears it. -/
theorem revivable_callback_protocol_witness :
    (revivableCallback (some fun _ => false) c1Hp).hp = c1Hp ∧
    (revivableCallback (some fun _ => true) c1Hp).hp =
      { c1Hp with handle := none } :=
  ⟨(revivable_callback_protocol (some fun _ => false) c1Hp).2.1
      (fun _ => false) rfl (by decide) rfl,
   (revivable_callback_protocol (some fun _ => true) c1Hp).2.2.1
      (fun _ => true) rfl (by decide) rfl⟩

/-- C3: for a handle whose host-object identifier is unresolved (`-1`),
`GetManagedObjectID` resolves it as follows: for an object value with at
least 2 internal fields it reads field 1 and takes its payload when that
field is an opaque external reference; for objects without that layout it
reads the hidden `"ManagedObjectID"` marker property; when nothing is found
it caches `-2`, and a `-2` cache is returned by later calls without
re-scanning the value. -/
theorem getManagedObjectID_resolution (hp : HandleProxy)
    (h : hp.objectID = -1) :
    (∀ o p, hp.handle = some (.obj o) → 1 < o.internalFields.length →
        o.internalFields.get? 1 = some (.extRef p) →
        hp.getManagedObjectID = ⟨p, { hp with objectID := p }, true⟩)
    ∧ (∀ o n, hp.handle = some (.obj o) → ¬ 1 < o.internalFields.length →
        o.hiddenGet "ManagedObjectID" = some (.hInt32 n) →
        hp.getManagedObjectID = ⟨n, { hp with objectID := n }, true⟩)
    ∧ ((∀ o, hp.handle ≠ some (.obj o)) →
        hp.getManagedObjectID = ⟨-2, { hp with objectID := -2 }, true⟩)
    ∧ (∀ hp2, hp.getManagedObjectID = ⟨-2, hp2, true⟩ →
        hp2.getManagedObjectID = ⟨-2, hp2, false⟩) := by
  have hcond : ¬ (hp.objectID < -1 ∨ 0 ≤ hp.objectID) := by omega
  refine ⟨?_, ?_, ?_, ?_⟩
  · intro o p hh hlen hslot
    have hscan : scanObjectID hp.handle = p := by
      simp only [scanObjectID, hh]
      rw [if_pos hlen, hslot]
    simp [HandleProxy.getManagedObjectID, hcond, hscan]
  · intro o n hh hlen hhid
    have hscan : scanObjectID hp.handle = n := by
      simp only [scanObjectID, hh]
      rw [if_neg hlen, hhid]
    simp [HandleProxy.getManagedObjectID, hcond, hscan]
  · intro hno
    have hscan : scanObjectID hp.handle = -2 := by
      unfold scanObjectID
      cases hh : hp.handle with
      | none => rfl
      | some v =>
        cases v with
        | obj o => exact absurd hh (hno o)
        | undef => rfl
        | vnull => rfl
        | boolean b => rfl
        | int32 n => rfl
        | num x => rfl
        | str s => rfl
        | extVal p => rfl
    simp [HandleProxy.getManagedObjectID, hcond, hscan]
  · intro hp2 heq
    simp [HandleProxy.getManagedObjectID, hcond] at heq
    have h2 : hp2.objectID = -2 := by
      have hproj := congrArg HandleProxy.objectID heq.2
      simp at hproj
      omega
    have hcond2 : hp2.objectID < -1 ∨ 0 ≤ hp2.objectID := by omega
    simp [HandleProxy.getManagedObjectID, hcond2, h2]

/-- A concrete unresolved handle whose object carries the external id 7 in
internal field 1. -/
def c3Hp : HandleProxy :=
  ⟨2, -1, .object, HandleValue.empty, 0, 0, 0,
    some (.obj ⟨.plain, [.aligned none, .extRef 7], []⟩)⟩

/-- Witness for `getManagedObjectID_resolution`: the slot-1 external payload
7 is resolved and cached. -/
theorem getManagedObjectID_resolution_witness :
    c3Hp.getManagedObjectID = ⟨7, { c3Hp with objectID := 7 }, true⟩ :=
  (getManagedObjectID_resolution c3Hp rfl).1 ⟨.plain, [.aligned none, .extRef 7], []⟩ 7
    rfl (by decide) rfl

/-- A concrete unresolved handle whose object is stamped with external id
`-1` in internal field 1 (as produced by `ConnectObject(h, -1, t)`). -/
def c4Hp : HandleProxy :=
  ⟨3, -1, .object, HandleValue.empty, 0, 0, 0,
    some (.obj ⟨.plain, [.undef, .extRef (-1)], []⟩)⟩

/-- C4 counterexample: on a handle whose stamped identifier is `-1`, the
first `GetManagedObjectID` call resolves to `-1` and the second call scans
the object again, contradicting "the second call performs no object or
property inspection". -/
theorem getManagedObjectID_rescan_counterexample :
    (gmoTwice c4Hp).1 = -1 ∧ (gmoTwice c4Hp).2.2 = true := by decide

/-- C4 (amended): two successive `GetManagedObjectID` calls return the same
value, and the second call performs no object or property inspection
provided the first call did not resolve the identifier to `-1` (which can
only happen when the value itself is stamped with `-1`); a cache of `>= 0`
or `-2` is returned without touching engine state. -/
theorem getManagedObjectID_idempotent (hp : HandleProxy) :
    (gmoTwice hp).1 = (gmoTwice hp).2.1 ∧
      ((gmoTwice hp).1 ≠ -1 → (gmoTwice hp).2.2 = false) := by
  unfold gmoTwice HandleProxy.getManagedObjectID
  by_cases hc : hp.objectID < -1 ∨ 0 ≤ hp.objectID
  · simp [hc]
  · simp only [hc, if_false]
    by_cases hc2 : scanObjectID hp.handle < -1 ∨ 0 ≤ scanObjectID hp.handle
    · simp [hc2]
    · have hm1 : scanObjectID hp.handle = -1 := by omega
      simp [hc2, hm1]

/-- A concrete handle whose identifier cache already holds 5. -/
def c4HpResolved : HandleProxy :=
  ⟨4, 5, .int32, HandleValue.empty, 0, 0, 0, some (.int32 9)⟩

/-- Witness for `getManagedObjectID_idempotent` at a handle resolved to 5:
both calls return 5 and the second call does not inspect the value. -/
theorem getManagedObjectID_idempotent_witness :
    (gmoTwice c4HpResolved).1 = (gmoTwice c4HpResolved).2.1 ∧
      (gmoTwice c4HpResolved).2.2 = false :=
  ⟨(getManagedObjectID_idempotent c4HpResolved).1,
   (getManagedObjectID_idempotent c4HpResolved).2 (by decide)⟩

/-- C5: the named-property dispatcher declines to intercept (returns the
empty "not handled" result) whenever the holder lacks the reserved
internal-slot layout or slot 0 does not resolve to a live back-reference of
the object-template proxy type; when the guards pass and the registered
getter returns a null result it likewise returns "not handled"; a non-null
getter result is returned as the value; and no branch throws. -/
theorem objectTemplate_getProperty_dispatch (heap : Nat → ProxyRec)
    (obj : V8Object) (name : String) :
    (reachedGetter heap obj = none →
        ObjectTemplateProxy.getProperty heap obj name = .empty)
    ∧ (∀ g, reachedGetter heap obj = some g → g name = none →
        ObjectTemplateProxy.getProperty heap obj name = .empty)
    ∧ (∀ g v, reachedGetter heap obj = some g → g name = some v →
        ObjectTemplateProxy.getProperty heap obj name = .value v)
    ∧ (∀ s, ObjectTemplateProxy.getProperty heap obj name ≠ .thrown s) := by
  unfold ObjectTemplateProxy.getProperty reachedGetter
  by_cases hl : 1 < obj.internalFields.length
  · rw [if_pos hl, if_pos hl]
    cases hf : obj.internalFields.get? 0 with
    | none => simp
    | some field =>
      by_cases hu : field = SlotContent.undef
      · subst hu; simp
      · cases ha : field.alignedPtr with
        | none => simp [hu, ha]
        | some addr =>
          by_cases ht : (heap addr).typeTag = .objectTemplateProxyClass
          · cases hg : (heap addr).namedGetter name with
            | none =>
              simp [hu, ha, ht, hg]
              intro g v hgg
              subst hgg
              simp [hg]
            | some v =>
              simp [hu, ha, ht, hg]
              intro g w hgg hw
              subst hgg
              rw [hg] at hw
              simp at hw
              exact hw
          · simp [hu, ha, ht]
  · rw [if_neg hl, if_neg hl]
    simp

/-- A registered named getter answering `"alpha"` with the string `"X"` and
nothing else. -/
def c5Getter : String → Option V8Value :=
  fun n => if n = "alpha" then some (.str "X") else none

/-- A proxy heap whose every address holds a live object-template proxy
carrying `c5Getter`. -/
def c5Heap : Nat → ProxyRec :=
  fun _ => ⟨.objectTemplateProxyClass, c5Getter⟩

/-- A holder object created from a host-aware template: slot 0 references
proxy address 0, slot 1 carries the external id 4. -/
def c5Obj : V8Object := ⟨.plain, [.aligned (some 0), .extRef 4], []⟩

/-- Witness for `objectTemplate_getProperty_dispatch`: on the host-aware
holder, the registered key is answered with its value and an unregistered
key falls through to "not handled". -/
theorem objectTemplate_getProperty_dispatch_witness :
    ObjectTemplateProxy.getProperty c5Heap c5Obj "alpha" = .value (.str "X") ∧
    ObjectTemplateProxy.getProperty c5Heap c5Obj "beta" = .empty :=
  ⟨(objectTemplate_getProperty_dispatch c5Heap c5Obj "alpha").2.2.1 c5Getter
      (.str "X") rfl rfl,
   (objectTemplate_getProperty_dispatch c5Heap c5Obj "beta").2.1 c5Getter
      rfl rfl⟩

/-- C6: for a script-side invocation of a host-backed function template, a
non-null host-callback result flagged as an error (kind tag `< 0`) is
surfaced as a thrown exception carrying the result's string representation;
a non-null non-error result becomes the call's return value; and a null
result returns the empty handle (undefined). -/
theorem invocationCallback_result_protocol
    (cb : Option (Bool → List V8Value → Option ManagedCallResult))
    (isConstructCall : Bool) (args : List V8Value) :
    (∀ f r, cb = some f → f isConstructCall args = some r →
        r.isError = true →
        FunctionTemplateProxy.invocationCallbackProxy cb isConstructCall args
          = .thrown r.strRep)
    ∧ (∀ f r, cb = some f → f isConstructCall args = some r →
        r.isError = false →
        FunctionTemplateProxy.invocationCallbackProxy cb isConstructCall args
          = .value r.handleVal)
    ∧ (∀ f, cb = some f → f isConstructCall args = none →
        FunctionTemplateProxy.invocationCallbackProxy cb isConstructCall args
          = .empty) := by
  refine ⟨?_, ?_, ?_⟩
  · intro f r hcb hres herr
    subst hcb
    simp [FunctionTemplateProxy.invocationCallbackProxy, hres, herr]
  · intro f r hcb hres herr
    subst hcb
    simp [FunctionTemplateProxy.invocationCallbackProxy, hres, herr]
  · intro f hcb hres
    subst hcb
    simp [FunctionTemplateProxy.invocationCallbackProxy, hres]

/-- A managed callback returning an error-tagged result with string
representation `"boom"`. -/
def c6ErrCb : Bool → List V8Value → Option ManagedCallResult :=
  fun _ _ => some ⟨.internalError, .undef, "boom"⟩

/-- A managed callback returning the integer 3. -/
def c6ValCb : Bool → List V8Value → Option ManagedCallResult :=
  fun _ _ => some ⟨.int32, .int32 3, "3"⟩

/-- A managed callback returning null. -/
def c6NullCb : Bool → List V8Value → Option ManagedCallResult :=
  fun _ _ => none

/-- Witness for `invocationCallback_result_protocol` at concrete callbacks:
an error result is thrown with its message, a plain result is returned, a
null result yields the empty handle. -/
theorem invocationCallback_result_protocol_witness :
    FunctionTemplateProxy.invocationCallbackProxy (some c6ErrCb) false []
        = .thrown "boom" ∧
    FunctionTemplateProxy.invocationCallbackProxy (some c6ValCb) false []
        = .value (.int32 3) ∧
    FunctionTemplateProxy.invocationCallbackProxy (some c6NullCb) false []
        = .empty :=
  ⟨(invocationCallback_result_protocol (some c6ErrCb) false []).1 c6ErrCb
      ⟨.internalError, .undef, "boom"⟩ rfl rfl (by decide),
   (invocationCallback_result_protocol (some c6ValCb) false []).2.1 c6ValCb
      ⟨.int32, .int32 3, "3"⟩ rfl rfl (by decide),
   (invocationCallback_result_protocol (some c6NullCb) false []).2.2 c6NullCb
      rfl rfl⟩

/-- C7: every object/property operation fails synchronously with the
"not an object" error whenever the target handle's engine reference is
empty or does not reference an object, and `GetArrayLength` fails with the
"not an array" error whenever the handle does not reference an array; each
failure leaves the engine and registry state unchanged (the error is raised
before any engine call or proxy allocation). -/
theorem objectOps_precondition_guard (hp : HandleProxy) (name : String)
    (i : Nat) (st : EngineSt) :
    (hp.refsObject = false →
      getObjectPropertyByName hp name st = (.error .notAnObject, st) ∧
      getObjectPropertyByIndex hp i st = (.error .notAnObject, st) ∧
      setObjectPropertyByName hp name st = (.error .notAnObject, st) ∧
      setObjectPropertyByIndex hp i st = (.error .notAnObject, st) ∧
      deleteObjectPropertyByName hp name st = (.error .notAnObject, st) ∧
      deleteObjectPropertyByIndex hp i st = (.error .notAnObject, st) ∧
      getPropertyAttributes hp name st = (.error .notAnObject, st) ∧
      getPropertyNames hp st = (.error .notAnObject, st) ∧
      getOwnPropertyNames hp st = (.error .notAnObject, st) ∧
      getObjectPrototype hp st = (.error .notAnObject, st)) ∧
    (hp.refsArray = false →
      getArrayLength hp st = (.error .notAnArray, st)) := by
  constructor
  · intro h
    simp [getObjectPropertyByName, getObjectPropertyByIndex,
      setObjectPropertyByName, setObjectPropertyByIndex,
      deleteObjectPropertyByName, deleteObjectPropertyByIndex,
      getPropertyAttributes, getPropertyNames, getOwnPropertyNames,
      getObjectPrototype, h]
  · intro h
    simp [getArrayLength, h]

/-- A handle referencing the primitive integer 3 (neither an object nor an
array). -/
def c7Hp : HandleProxy :=
  ⟨5, -1, .int32, HandleValue.empty, 0, 0, 0, some (.int32 3)⟩

/-- Witness for `objectOps_precondition_guard` at a non-object, non-array
handle with an explicit registry state: every operation fails with its
structural error and the state is returned unchanged. -/
theorem objectOps_precondition_guard_witness :
    (getObjectPropertyByName c7Hp "k" ⟨9, []⟩
        = (.error .notAnObject, ⟨9, []⟩) ∧
      getObjectPropertyByIndex c7Hp 0 ⟨9, []⟩
        = (.error .notAnObject, ⟨9, []⟩) ∧
      setObjectPropertyByName c7Hp "k" ⟨9, []⟩
        = (.error .notAnObject, ⟨9, []⟩) ∧
      setObjectPropertyByIndex c7Hp 0 ⟨9, []⟩
        = (.error .notAnObject, ⟨9, []⟩) ∧
      deleteObjectPropertyByName c7Hp "k" ⟨9, []⟩
        = (.error .notAnObject, ⟨9, []⟩) ∧
      deleteObjectPropertyByIndex c7Hp 0 ⟨9, []⟩
        = (.error .notAnObject, ⟨9, []⟩) ∧
      getPropertyAttributes c7Hp "k" ⟨9, []⟩
        = (.error .notAnObject, ⟨9, []⟩) ∧
      getPropertyNames c7Hp ⟨9, []⟩ = (.error .notAnObject, ⟨9, []⟩) ∧
      getOwnPropertyNames c7Hp ⟨9, []⟩ = (.error .notAnObject, ⟨9, []⟩) ∧
      getObjectPrototype c7Hp ⟨9, []⟩ = (.error .notAnObject, ⟨9, []⟩)) ∧
    getArrayLength c7Hp ⟨9, []⟩ = (.error .notAnArray, ⟨9, []⟩) :=
  ⟨(objectOps_precondition_guard c7Hp "k" 0 ⟨9, []⟩).1 (by decide),
   (objectOps_precondition_guard c7Hp "k" 0 ⟨9, []⟩).2 (by decide)⟩

/-- A native JavaScript error object (e.g. the result of `new Error(...)`). -/
def errObjVal : V8Value := .obj ⟨.nativeError, [], []⟩

/-- A blank handle proxy. -/
def hpBlank : HandleProxy :=
  ⟨0, -1, .undefined, HandleValue.empty, 0, 0, 0, none⟩

/-- C8 counterexample: assigning a native error object to a handle tags it
`JSV_Undefined` (the `IsNativeError` branch of `SetHandle`), and `UpdateValue`
keeps that tag, so after `UpdateValue` the kind tag classifies an
error-valued handle as "undefined" rather than "error" (its own `IsError`
predicate is false) or "object". -/
theorem setHandle_error_value_counterexample :
    errObjVal.isNativeError = true ∧
    errObjVal.isObject = true ∧
    errObjVal.isUndefined = false ∧
    ((hpBlank.setHandle errObjVal).updateValue).vtype = JSValueType.undefined ∧
    ((hpBlank.setHandle errObjVal).updateValue).isError = false ∧
    ((hpBlank.setHandle errObjVal).updateValue).vtype ≠ JSValueType.object := by
  decide

/-- C8 (amended): the kind tag is computed when a value is assigned
(`SetHandle` reruns the classification chain on every assignment), and
`UpdateValue` changes neither the tag nor the underlying value, so after
`UpdateValue` the tag still classifies the assigned value exactly as at
assignment time.  The classification maps booleans, int32s, numbers,
strings (and their wrapper objects), dates, arrays, regexps and functions to
their kinds, plain objects and `null` to the object kind, and `undefined` to
the undefined kind — but native error objects and opaque externals are also
tagged undefined; the negative error tags are never produced by value
assignment. -/
theorem setHandle_updateValue_classification (hp : HandleProxy)
    (v : V8Value) :
    ((hp.setHandle v).vtype = classify v)
    ∧ ((hp.setHandle v).handle = some v)
    ∧ (hp.updateValue.vtype = hp.vtype)
    ∧ (hp.updateValue.handle = hp.handle)
    ∧ (((hp.setHandle v).updateValue).vtype = classify v)
    ∧ (((hp.setHandle v).updateValue).handle = some v)
    ∧ (∀ b, classify (.boolean b) = .bool)
    ∧ (∀ n, classify (.int32 n) = .int32)
    ∧ (∀ x, classify (.num x) = .number)
    ∧ (∀ s, classify (.str s) = .string)
    ∧ (classify .vnull = .object)
    ∧ (classify .undef = .undefined)
    ∧ (∀ p, classify (.extVal p) = .undefined)
    ∧ (∀ fs hd, classify (.obj ⟨.plain, fs, hd⟩) = .object)
    ∧ (∀ fs hd, classify (.obj ⟨.boolObj, fs, hd⟩) = .boolObject)
    ∧ (∀ fs hd, classify (.obj ⟨.numObj, fs, hd⟩) = .numberObject)
    ∧ (∀ fs hd, classify (.obj ⟨.strObj, fs, hd⟩) = .stringObject)
    ∧ (∀ fs hd, classify (.obj ⟨.date, fs, hd⟩) = .date)
    ∧ (∀ fs hd, classify (.obj ⟨.array, fs, hd⟩) = .array)
    ∧ (∀ fs hd, classify (.obj ⟨.regexp, fs, hd⟩) = .regExp)
    ∧ (∀ fs hd, classify (.obj ⟨.func, fs, hd⟩) = .function)
    ∧ (∀ fs hd, classify (.obj ⟨.nativeError, fs, hd⟩) = .undefined) :=
  ⟨rfl, rfl, rfl, rfl, rfl, rfl,
   fun _ => rfl, fun _ => rfl, fun _ => rfl, fun _ => rfl, rfl, rfl,
   fun _ => rfl, fun _ _ => rfl, fun _ _ => rfl, fun _ _ => rfl,
   fun _ _ => rfl, fun _ _ => rfl, fun _ _ => rfl, fun _ _ => rfl,
   fun _ _ => rfl, fun _ _ => rfl⟩

/-- C2 (code evaluation): after engine teardown the handle operations still
touch engine state.  `MakeWeak` and `MakeStrong` contain no disposed-engine
check at all — their step sequences unconditionally dereference
`_EngineProxy->_Isolate` and call into V8; `UpdateValue` likewise calls into
V8 for every value-carrying kind tag (shown here for a boolean-tagged
handle); and even `_Dispose`, which does check `IsDisposed` and then frees
the record immediately, first acquires `_EngineProxy->_HandleSystemMutex`,
i.e. dereferences the (freed) engine instance before the check. -/
theorem teardown_operations_touch_engine :
    makeWeakTrace.any EngineEv.touchesEngine = true ∧
    makeStrongTrace.any EngineEv.touchesEngine = true ∧
    (updateValueTrace .bool false).any EngineEv.touchesEngine = true ∧
    (disposeTrace true true 1).any EngineEv.touchesEngine = true ∧
    (disposeTrace true true 1).contains .freeOwnMemory = true := by
  decide

/-- C9 (code evaluation): the handle-registry mutations performed by
`HandleProxy::_Dispose` are NOT covered by the handle-system mutex.  The
guard statement at HandleProxy.cpp line 28 constructs an unnamed
`std::lock_guard` temporary, which C++ destroys at the end of that very
statement, so the mutex is unlocked again before the disposal-state
transition, the identifier-cache reset, the value-box release, the
registry-disposal registration, or the record free runs — on every path of
the function. -/
theorem dispose_mutations_not_mutex_guarded :
    mutationsGuarded (disposeTrace false false 1) = false ∧
    mutationsGuarded (disposeTrace false true 1) = false ∧
    mutationsGuarded (disposeTrace true false 1) = false := by
  decide

/-- Setting a hidden property makes it the value found by lookup. -/
theorem V8Object.hiddenGet_setHidden (o : V8Object) (n : String)
    (v : HiddenVal) : (o.setHidden n v).hiddenGet n = some v := by
  unfold V8Object.setHidden V8Object.hiddenGet
  rw [List.find?_cons_of_pos _ (by simp)]
  rfl

/-- Setting a hidden property leaves the internal fields unchanged. -/
theorem V8Object.internalFields_setHidden (o : V8Object) (n : String)
    (v : HiddenVal) : (o.setHidden n v).internalFields = o.internalFields :=
  rfl

/-- C10: `ConnectObject(handleProxy, managedObjectID, templateProxy)` always
caches `managedObjectID` on the proxy, even when the wrapped value is empty
or not an object (in which case nothing else changes); for an object without
the two-field layout only the hidden `"ManagedObjectID"` marker is stamped;
for an object with the layout, field 1 receives the external-wrapped id, the
marker is stamped, and field 0 is written (with the template back-reference)
only when `templateProxy` is non-null. -/
theorem connectObject_stamping (hp : HandleProxy) (mid : Int)
    (tmpl : Option Nat) :
    ((connectObject hp mid tmpl).objectID = mid)
    ∧ ((∀ o, hp.handle ≠ some (.obj o)) →
        connectObject hp mid tmpl = { hp with objectID := mid })
    ∧ (∀ o, hp.handle = some (.obj o) → ¬ 1 < o.internalFields.length →
        connectObject hp mid tmpl =
          { hp with
            objectID := mid
            handle :=
              some (.obj (o.setHidden "ManagedObjectID" (.hInt32 mid))) } ∧
        (o.setHidden "ManagedObjectID" (.hInt32 mid)).internalFields
          = o.internalFields)
    ∧ (∀ o, hp.handle = some (.obj o) → 1 < o.internalFields.length →
        ∃ o2, (connectObject hp mid tmpl).handle = some (.obj o2) ∧
          o2.internalFields.get? 1 = some (.extRef mid) ∧
          o2.hiddenGet "ManagedObjectID" = some (.hInt32 mid) ∧
          (tmpl = none →
            o2.internalFields.get? 0 = o.internalFields.get? 0) ∧
          (∀ t, tmpl = some t →
            o2.internalFields.get? 0 = some (.aligned (some t)))) := by
  refine ⟨rfl, ?_, ?_, ?_⟩
  · intro hno
    unfold connectObject
    cases hh : hp.handle with
    | none => simp [hh]
    | some v =>
      cases v with
      | obj o => exact absurd hh (hno o)
      | undef => simp [hh]
      | vnull => simp [hh]
      | boolean b => simp [hh]
      | int32 n => simp [hh]
      | num x => simp [hh]
      | str s => simp [hh]
      | extVal p => simp [hh]
  · intro o hh hlen
    refine ⟨?_, rfl⟩
    unfold connectObject
    rw [hh]
    simp only [if_neg hlen]
  · intro o hh hlen
    unfold connectObject
    rw [hh]
    simp only [if_pos hlen]
    cases tmpl with
    | none =>
      refine ⟨(o.setField 1 (.extRef mid)).setHidden "ManagedObjectID"
        (.hInt32 mid), rfl, ?_, V8Object.hiddenGet_setHidden _ _ _, ?_, ?_⟩
      · rw [V8Object.internalFields_setHidden]
        exact List.get?_set_eq_of_lt _ hlen
      · intro _
        rw [V8Object.internalFields_setHidden]
        exact List.get?_set_ne _ _ (by omega)
      · intro t ht
        cases ht
    | some t =>
      refine ⟨((o.setField 0 (.aligned (some t))).setField 1
        (.extRef mid)).setHidden "ManagedObjectID" (.hInt32 mid), rfl, ?_,
        V8Object.hiddenGet_setHidden _ _ _, ?_, ?_⟩
      · rw [V8Object.internalFields_setHidden]
        apply List.get?_set_eq_of_lt
        simpa [V8Object.setField] using hlen
      · intro hn
        cases hn
      · intro t2 ht2
        cases ht2
        rw [V8Object.internalFields_setHidden]
        unfold V8Object.setField
        rw [List.get?_set_ne _ _ (by omega)]
        exact List.get?_set_eq_of_lt _ (by omega)

/-- A handle wrapping a template-layout object (two internal fields, both
still undefined). -/
def c10Hp : HandleProxy :=
  ⟨6, -1, .object, HandleValue.empty, 0, 0, 0,
    some (.obj ⟨.plain, [.undef, .undef], []⟩)⟩

/-- Witness for `connectObject_stamping`: connecting id 11 with template
back-reference 2 caches the id, stamps field 0 with the back-reference,
field 1 with the external id, and the hidden marker with the id. -/
theorem connectObject_stamping_witness :
    (connectObject c10Hp 11 (some 2)).objectID = 11 ∧
    ∃ o2, (connectObject c10Hp 11 (some 2)).handle = some (.obj o2) ∧
      o2.internalFields.get? 1 = some (.extRef 11) ∧
      o2.hiddenGet "ManagedObjectID" = some (.hInt32 11) ∧
      o2.internalFields.get? 0 = some (.aligned (some 2)) := by
  refine ⟨(connectObject_stamping c10Hp 11 (some 2)).1, ?_⟩
  obtain ⟨o2, h1, h2, h3, _, h5⟩ :=
    (connectObject_stamping c10Hp 11 (some 2)).2.2.2
      ⟨.plain, [.undef, .undef], []⟩ rfl (by decide)
  exact ⟨o2, h1, h2, h3, h5 2 rfl⟩
